import Mathlib

/-!
Shallow embedding of `src/chardev.c` (ghost820/linux-chardev-template).

The source file holds three near-duplicate variants of the same character
device driver, separated in the repository file:

* Variant A (lines 1-135): `CHARDEV_BUFSIZE = 128`, an `is_open` exclusivity
  flag, buffer allocated with `kzalloc` on open and freed on release, and a
  simplified `chardev_write` that rejects `count > CHARDEV_BUFSIZE` with
  `-EINVAL` and always copies to offset 0 (the `*f_pos += count` line is
  commented out).
* Variant B (lines 136-343): `CHARDEV_BUFSIZE = 16`, no `is_open` flag,
  buffer allocated once in `chardev_init`, with `chardev_write`,
  `chardev_read` and `chardev_lseek` that clamp against the file position.
* Variant C (lines 344-433): only `chardev_open` is registered in
  `chardev_fileops`; it sets `is_open` and nothing ever clears it.

Machine integers: `size_t count` and buffer offsets are modelled as `Nat`,
`loff_t` quantities mixed with negatives (`chardev_lseek`) as `Int`.  The
variant-B clamp `*f_pos + count > CHARDEV_BUFSIZE` adds a `loff_t` to a
`size_t`: by the usual arithmetic conversions the sum is computed in
unsigned 64-bit arithmetic and wraps modulo `2^64`, so the clamp is modelled
with an explicit `% 2^64` — for `count ≥ 2^64 - *f_pos` the wrapped sum is
small, the clamp is skipped, and the copy runs with the unclamped count.
Bytes are modelled as `Nat` values (their numeric range never matters to
the control flow).  `copy_from_user` / `copy_to_user` return the number of
bytes NOT copied; a nonzero return is a fault, and the bytes preceding the
fault point have already been transferred.  We model this by an explicit
`uncopied` parameter for writes (prefix of length `count - uncopied` lands
in the buffer) and a `destFault` flag for reads (device state is untouched
either way; a copy of zero bytes never faults).  In addition, both copy
helpers begin with `access_ok(user_ptr, n)`, which rejects any length that
cannot fit in the user half of the address space: on every 64-bit Linux
port `TASK_SIZE_MAX < 2^63`, so a request of `2^63` bytes or more always
fails with nothing copied — this is what turns a clamp bypassed by the
wrap (length at least `2^64 - 16`) into an `-EFAULT` return.  The single
`DEFINE_MUTEX(chardev_mutex)` is modelled as a `locked : Bool` component of
the state: `mutex_lock` sets it, every `mutex_unlock` before a return
clears it, mirroring each exit path of the C code.
-/

namespace Chardev

/-- Error returns of the driver, one constructor per negative errno
value appearing in `src/chardev.c`. -/
inductive Err where
  /-- errno `-ENODEV` -/
  | nodev
  /-- errno `-EBUSY` -/
  | busy
  /-- errno `-ENOMEM` -/
  | nomem
  /-- errno `-EFAULT` -/
  | fault
  /-- errno `-EFBIG` -/
  | fbig
  /-- errno `-EINVAL` -/
  | inval
deriving DecidableEq, Repr

/-- Overwriting semantics of a bounded copy: `storeBytes dst pos src` overwrites `dst` starting at index `pos` with
the bytes of `src`, one by one — the effect of `memcpy(dst + pos, src, n)`
on the destination array (`List.set` ignores out-of-range indices, which
never arise in the uses below). -/
def storeBytes (dst : List Nat) (pos : Nat) (src : List Nat) : List Nat :=
  match src with
  | [] => dst
  | b :: rest => storeBytes (dst.set pos b) (pos + 1) rest

/-! ## Variant B: read / write / lseek over a 16-byte buffer

Lines 136-343 of the file.  `chardev_open` here only resolves the device and
stashes it in `filp->private_data`; the buffer lives for the whole module
lifetime (allocated in `chardev_init`, freed in `chardev_exit`), and the
cursor is the caller's `*f_pos`. -/

namespace VariantB

/-- Value of `CHARDEV_BUFSIZE` in the read/write/lseek variant. -/
def CHARDEV_BUFSIZE : Nat := 16

/-- Modulus of the unsigned 64-bit arithmetic in which the C computes
`*f_pos + count` (`loff_t` + `size_t` on LP64): `2^64`. -/
def U64_MOD : Nat := 18446744073709551616

/-- Largest copy length `access_ok` can possibly accept.  A user range of
`n` bytes must fit below the user/kernel split, and `TASK_SIZE_MAX` is
below `2^63` on every 64-bit Linux port, so `copy_to_user` /
`copy_from_user` with `n ≥ 2^63` fails with nothing copied.  The exact
bound is immaterial for this driver: every length it ever passes is either
at most 16 or at least `2^64 - 16`. -/
def USER_COPY_CAP : Nat := 9223372036854775808

/-- Device-visible state of the variant-B driver: the backing buffer
(`chardev.buffer`, allocated in `chardev_init`), the caller's file position
`*f_pos`, and whether `chardev_mutex` is held. -/
structure StateB where
  buffer : List Nat
  f_pos : Nat
  locked : Bool
deriving DecidableEq, Repr

/-- Variant-B `chardev_write`.  `data` is the user buffer `buf`;
`uncopied` is the value `copy_from_user` returns on a partial copy (0 =
full copy, nonzero = fault after `count - uncopied` bytes were already
stored).  The clamp sum `*f_pos + count` wraps modulo `2^64` as in the C;
when the wrap bypasses the clamp, the unclamped length exceeds
`USER_COPY_CAP`, `access_ok` inside `copy_from_user` rejects the user
range, nothing is copied, and the call returns `-EFAULT`. -/
def chardev_write (s : StateB) (data : List Nat) (count uncopied : Nat) :
    Except Err Nat × StateB :=
  let s1 : StateB := { s with locked := true }
  let count1 := if (s1.f_pos + count) % U64_MOD > CHARDEV_BUFSIZE
                then CHARDEV_BUFSIZE - s1.f_pos else count
  if count1 = 0 then
    (.error .fbig, { s1 with locked := false })
  else if count1 > USER_COPY_CAP then
    (.error .fault, { s1 with locked := false })
  else
    let s2 : StateB :=
      { s1 with buffer := storeBytes s1.buffer s1.f_pos (data.take (count1 - uncopied)) }
    if uncopied ≠ 0 then
      (.error .fault, { s2 with locked := false })
    else
      (.ok count1, { s2 with f_pos := s2.f_pos + count1, locked := false })

/-- Variant-B `chardev_read`.  Returns the clamped count together with the
bytes handed to user space.  `destFault` says the user destination is
inaccessible; `copy_to_user` of zero bytes always succeeds, and — as in
`chardev_write` — a length above `USER_COPY_CAP` (which arises exactly when
the `% 2^64` wrap bypasses the clamp) fails `access_ok` and faults
regardless of the destination. -/
def chardev_read (s : StateB) (count : Nat) (destFault : Bool) :
    Except Err (Nat × List Nat) × StateB :=
  let s1 : StateB := { s with locked := true }
  let count1 := if (s1.f_pos + count) % U64_MOD > CHARDEV_BUFSIZE
                then CHARDEV_BUFSIZE - s1.f_pos else count
  if (destFault = true ∧ count1 ≠ 0) ∨ count1 > USER_COPY_CAP then
    (.error .fault, { s1 with locked := false })
  else
    (.ok (count1, (s1.buffer.drop s1.f_pos).take count1),
     { s1 with f_pos := s1.f_pos + count1, locked := false })

/-- Origin `SEEK_SET`. -/
def SEEK_SET : Int := 0
/-- Origin `SEEK_CUR`. -/
def SEEK_CUR : Int := 1
/-- Origin `SEEK_END`. -/
def SEEK_END : Int := 2

/-- Variant-B `chardev_lseek`. -/
def chardev_lseek (s : StateB) (off whence : Int) :
    Except Err Int × StateB :=
  let s1 : StateB := { s with locked := true }
  match (if whence = SEEK_SET then some off
         else if whence = SEEK_CUR then some ((s1.f_pos : Int) + off)
         else if whence = SEEK_END then some ((CHARDEV_BUFSIZE : Int) + off)
         else none) with
  | none => (.error .inval, { s1 with locked := false })
  | some tmp =>
    if tmp > (CHARDEV_BUFSIZE : Int) ∨ tmp < 0 then
      (.error .inval, { s1 with locked := false })
    else
      (.ok tmp, { s1 with f_pos := tmp.toNat, locked := false })

/-- Variant-B `chardev_open`: after the device-number check it only sets
`filp->private_data`; no lock, no state change we model. -/
def chardev_open (s : StateB) (idMatch : Bool) : Except Err Unit × StateB :=
  if idMatch = false then (.error .nodev, s) else (.ok (), s)

/-- Variant-B `chardev_release`: just `return 0;`. -/
def chardev_release (s : StateB) : Except Err Unit × StateB :=
  (.ok (), s)

/-- One request against the variant-B device, as dispatched through
`chardev_fileops`. -/
inductive OpB where
  | rd (count : Nat) (destFault : Bool)
  | wr (data : List Nat) (count uncopied : Nat)
  | sk (off whence : Int)

/-- The state after one request. -/
def stepB (s : StateB) : OpB → StateB
  | .rd c df => (chardev_read s c df).2
  | .wr d c u => (chardev_write s d c u).2
  | .sk o w => (chardev_lseek s o w).2

/-- The state after a sequence of requests. -/
def runB (s : StateB) : List OpB → StateB
  | [] => s
  | op :: ops => runB (stepB s op) ops

end VariantB

/-! ## Variant A: exclusive open, 128-byte buffer, simplified write

Lines 1-135 of the file.  The buffer is `kzalloc`ed in `chardev_open` and
`kfree`d in `chardev_release`; `is_open` enforces exclusivity; the only data
operation registered in `chardev_fileops` is `chardev_write`, which rejects
`count > CHARDEV_BUFSIZE` with `-EINVAL`, always copies to offset 0, and
leaves `*f_pos` untouched (the `*f_pos += count;` line is commented out). -/

namespace VariantA

/-- Value of `CHARDEV_BUFSIZE` in the exclusive-open variant. -/
def CHARDEV_BUFSIZE : Nat := 128

/-- State of the variant-A driver: `chardev.buffer` (`none` models the NULL
pointer, `some` an allocation holding the given bytes), `chardev.is_open`,
the caller's `*f_pos`, and whether `chardev_mutex` is held. -/
structure StateA where
  buffer : Option (List Nat)
  is_open : Bool
  f_pos : Nat
  locked : Bool
deriving DecidableEq, Repr

/-- Variant-A `chardev_open`.  `idMatch` is the device-number comparison
against `chardev_id`; `allocOk` is whether `kzalloc` succeeds.  Note that a
failed `kzalloc` still assigns NULL to `dev->buffer` before the `-ENOMEM`
return. -/
def chardev_open (s : StateA) (idMatch allocOk : Bool) :
    Except Err Unit × StateA :=
  if idMatch = false then
    (.error .nodev, s)
  else
    let s1 : StateA := { s with locked := true }
    if s1.is_open then
      (.error .busy, { s1 with locked := false })
    else if allocOk = false then
      (.error .nomem, { s1 with buffer := none, locked := false })
    else
      (.ok (), { s1 with buffer := some (List.replicate CHARDEV_BUFSIZE 0),
                         is_open := true, locked := false })

/-- Variant-A `chardev_release`: frees the buffer, clears `is_open`. -/
def chardev_release (s : StateA) : Except Err Unit × StateA :=
  let s1 : StateA := { s with locked := true }
  (.ok (), { s1 with buffer := none, is_open := false, locked := false })

/-- Variant-A `chardev_write`.  Copies to `dev->buffer` at offset 0; the
cursor is never consulted or advanced.  If `dev->buffer` is NULL the C code
dereferences a null pointer inside `copy_from_user` — undefined behaviour,
modelled as `none`. -/
def chardev_write (s : StateA) (data : List Nat) (count uncopied : Nat) :
    Option (Except Err Nat × StateA) :=
  if count > CHARDEV_BUFSIZE then
    some (.error .inval, s)
  else
    match s.buffer with
    | none => none
    | some buf =>
      let s1 : StateA := { s with locked := true }
      let s2 : StateA :=
        { s1 with buffer := some (storeBytes buf 0 (data.take (count - uncopied))) }
      if uncopied ≠ 0 then
        some (.error .fault, { s2 with locked := false })
      else
        some (.ok count, { s2 with locked := false })

end VariantA

/-! ## Variant C: open only, never released

Lines 344-433 of the file.  `chardev_fileops` registers only `.owner` and
`.open`; there is no `.release` (nor read/write/llseek), so no code path
ever clears `is_open` again. -/

namespace VariantC

/-- State of the variant-C driver: just `chardev.is_open` and the mutex. -/
structure StateC where
  is_open : Bool
  locked : Bool
deriving DecidableEq, Repr

/-- Variant-C `chardev_open`. -/
def chardev_open (s : StateC) (idMatch : Bool) : Except Err Unit × StateC :=
  if idMatch = false then
    (.error .nodev, s)
  else
    let s1 : StateC := { s with locked := true }
    if s1.is_open then
      (.error .busy, { s1 with locked := false })
    else
      (.ok (), { s1 with is_open := true, locked := false })

/-- The state after a sequence of open requests — the only file operation
registered in this variant's `chardev_fileops`, each identified by its
device-number match flag. -/
def runC (s : StateC) : List Bool → StateC
  | [] => s
  | idm :: rest => runC (chardev_open s idm).2 rest

end VariantC

/-! ## Claim theorems -/

theorem storeBytes_length (src dst : List Nat) (pos : Nat) :
    (storeBytes dst pos src).length = dst.length := by
  induction src generalizing dst pos with
  | nil => rfl
  | cons b rest ih => simp [storeBytes, ih]

theorem storeBytes_getElem? (src dst : List Nat) (pos i : Nat) :
    (storeBytes dst pos src)[i]? =
      if pos ≤ i ∧ i < pos + src.length ∧ i < dst.length then src[i - pos]?
      else dst[i]? := by
  induction src generalizing dst pos with
  | nil =>
    simp only [storeBytes, List.length_nil]
    split
    · omega
    · rfl
  | cons b rest ih =>
    rw [storeBytes, ih]
    simp only [List.length_set, List.length_cons]
    rcases Nat.lt_trichotomy i pos with hlt | heq | hgt
    · rw [if_neg (by omega), if_neg (by omega), List.getElem?_set_ne (by omega)]
    · subst heq
      by_cases hi : i < dst.length
      · rw [if_neg (by omega), if_pos ⟨le_refl i, by omega, hi⟩,
          List.getElem?_set_eq_of_lt b hi]
        simp [Nat.sub_self]
      · rw [if_neg (by omega), if_neg (by omega),
          List.getElem?_eq_none (by simp only [List.length_set]; omega),
          List.getElem?_eq_none (by omega)]
    · by_cases hin : i < pos + (rest.length + 1) ∧ i < dst.length
      · rw [if_pos ⟨by omega, by omega, hin.2⟩, if_pos ⟨by omega, hin⟩]
        have : i - pos = (i - (pos + 1)) + 1 := by omega
        rw [this]
        simp
      · rw [if_neg (by omega), if_neg (by omega), List.getElem?_set_ne (by omega)]

/-- The bytes written by `storeBytes` can be read back: the slice of length
`src.length` at `pos` equals `src`, provided the write stays in bounds. -/
theorem storeBytes_slice (src dst : List Nat) (pos : Nat)
    (h : pos + src.length ≤ dst.length) :
    ((storeBytes dst pos src).drop pos).take src.length = src := by
  apply List.ext_getElem?
  intro j
  rcases Nat.lt_or_ge j src.length with hj | hj
  · rw [List.getElem?_take_of_lt hj, List.getElem?_drop, storeBytes_getElem?,
      if_pos ⟨by omega, by omega, by omega⟩]
    congr 1
    omega
  · rw [List.getElem?_eq_none (l := src) hj, List.getElem?_eq_none]
    simp only [List.length_take, List.length_drop, storeBytes_length]
    omega

/-- The clamp `if (pos + count) % 2^64 > C then C - pos else count` used by
the variant-B read and write paths computes `min count (C - pos)` whenever
the cursor is in range and the 64-bit sum does not wrap. -/
theorem clamp_eq_min (p c C : Nat) (h : p ≤ C) (hw : p + c < VariantB.U64_MOD) :
    (if (p + c) % VariantB.U64_MOD > C then C - p else c) = min c (C - p) := by
  rw [Nat.mod_eq_of_lt hw]
  split <;> omega

/-- Claim C1 (code bug, overflow-defeated bounds clamp): at cursor 8 with
`count = 2^64 - 4` the unsigned 64-bit sum `*f_pos + count` wraps to 4, the
clamp at `chardev.c:199-201` is skipped, and `copy_to_user` runs with the
unclamped near-`2^64` length, which fails `access_ok` and returns
`-EFAULT` with the cursor left at 8 — while the claim (and the spec's
bounds-clamp property, clearly the intent of the clamp) demands a
successful read of `min(count, 16 - 8) = 8` bytes advancing the cursor
to 16. -/
theorem C1_read_wrap_bug :
    (VariantB.chardev_read ⟨List.replicate 16 0, 8, false⟩ (2 ^ 64 - 4) false).1
      = .error .fault ∧
    (VariantB.chardev_read ⟨List.replicate 16 0, 8, false⟩ (2 ^ 64 - 4) false).2.f_pos
      = 8 ∧
    min (2 ^ 64 - 4) (VariantB.CHARDEV_BUFSIZE - 8) = 8 :=
  ⟨rfl, rfl, rfl⟩

/-- Claim C2: in variant A, an `open` while the device is already open
fails with `-EBUSY` and changes no state (`is_open`, buffer and cursor all
unchanged), and an `open` directly following a `release` succeeds (given
the device numbers match and `kzalloc` succeeds, the only other failure
sources of this `open`). -/
theorem C2_open_exclusive :
    (∀ (s : VariantA.StateA) (allocOk : Bool), s.is_open = true →
      (VariantA.chardev_open s true allocOk).1 = .error .busy ∧
      (VariantA.chardev_open s true allocOk).2.is_open = s.is_open ∧
      (VariantA.chardev_open s true allocOk).2.buffer = s.buffer ∧
      (VariantA.chardev_open s true allocOk).2.f_pos = s.f_pos) ∧
    (∀ s : VariantA.StateA,
      (VariantA.chardev_open (VariantA.chardev_release s).2 true true).1 = .ok ()) := by
  constructor
  · intro s allocOk hopen
    simp [VariantA.chardev_open, hopen]
  · intro s
    simp [VariantA.chardev_open, VariantA.chardev_release]

/-- Claim C2, instantiated: a second `open` of the already-open variant-A
device returns `-EBUSY`. -/
theorem C2_open_exclusive_witness :
    (VariantA.chardev_open ⟨some (List.replicate 128 0), true, 0, false⟩ true true).1
      = .error .busy :=
  (C2_open_exclusive.1 ⟨some (List.replicate 128 0), true, 0, false⟩ true rfl).1

/-- Claim C3 (code bug, overflow-defeated bounds clamp): at cursor 8 with
`count = 2^64 - 4` the effective length the claim prescribes,
`min(count, 16 - 8) = 8`, is positive, so the claim demands an 8-byte copy
advancing the cursor; instead the unsigned 64-bit sum at `chardev.c:171`
wraps to 4, the clamp is skipped, and `copy_from_user` runs with the
unclamped near-`2^64` length, which fails `access_ok`: the call returns
`-EFAULT`, copies nothing, and leaves the cursor at 8. -/
theorem C3_write_wrap_bug :
    (VariantB.chardev_write ⟨List.replicate 16 0, 8, false⟩ (List.replicate 16 1)
        (2 ^ 64 - 4) 0).1 = .error .fault ∧
    (VariantB.chardev_write ⟨List.replicate 16 0, 8, false⟩ (List.replicate 16 1)
        (2 ^ 64 - 4) 0).2.buffer = List.replicate 16 0 ∧
    (VariantB.chardev_write ⟨List.replicate 16 0, 8, false⟩ (List.replicate 16 1)
        (2 ^ 64 - 4) 0).2.f_pos = 8 ∧
    0 < min (2 ^ 64 - 4) (VariantB.CHARDEV_BUFSIZE - 8) :=
  ⟨rfl, rfl, rfl, by decide⟩

/-- Claim C4: variant-B `chardev_lseek` computes the target as `off`
(`SEEK_SET`), `cursor + off` (`SEEK_CUR`) or `capacity + off` (`SEEK_END`);
it fails with `-EINVAL` on an unrecognized origin or when the target is
negative or exceeds the capacity (leaving cursor and buffer unchanged), and
otherwise sets the cursor to the target and returns it. -/
theorem C4_lseek_spec (s : VariantB.StateB) (off whence : Int) :
    (∀ t : Int,
      ((whence = VariantB.SEEK_SET ∧ t = off) ∨
       (whence = VariantB.SEEK_CUR ∧ t = (s.f_pos : Int) + off) ∨
       (whence = VariantB.SEEK_END ∧ t = (VariantB.CHARDEV_BUFSIZE : Int) + off)) →
      ((t < 0 ∨ t > (VariantB.CHARDEV_BUFSIZE : Int)) →
        (VariantB.chardev_lseek s off whence).1 = .error .inval ∧
        (VariantB.chardev_lseek s off whence).2.f_pos = s.f_pos ∧
        (VariantB.chardev_lseek s off whence).2.buffer = s.buffer) ∧
      ((0 ≤ t ∧ t ≤ (VariantB.CHARDEV_BUFSIZE : Int)) →
        (VariantB.chardev_lseek s off whence).1 = .ok t ∧
        ((VariantB.chardev_lseek s off whence).2.f_pos : Int) = t ∧
        (VariantB.chardev_lseek s off whence).2.buffer = s.buffer)) ∧
    ((whence ≠ VariantB.SEEK_SET ∧ whence ≠ VariantB.SEEK_CUR ∧
        whence ≠ VariantB.SEEK_END) →
      (VariantB.chardev_lseek s off whence).1 = .error .inval ∧
      (VariantB.chardev_lseek s off whence).2.f_pos = s.f_pos ∧
      (VariantB.chardev_lseek s off whence).2.buffer = s.buffer) := by
  constructor
  · intro t ht
    have hlift : (VariantB.chardev_lseek s off whence)
        = (if t > (VariantB.CHARDEV_BUFSIZE : Int) ∨ t < 0 then
            (.error .inval, { s with locked := false })
          else
            (.ok t, { s with f_pos := t.toNat, locked := false })) := by
      rcases ht with ⟨hw, htv⟩ | ⟨hw, htv⟩ | ⟨hw, htv⟩ <;>
        subst hw <;> subst htv <;>
        simp [VariantB.chardev_lseek, VariantB.SEEK_SET, VariantB.SEEK_CUR,
          VariantB.SEEK_END]
    constructor
    · intro hbad
      rw [hlift, if_pos (by omega)]
      exact ⟨rfl, rfl, rfl⟩
    · intro hgood
      rw [hlift, if_neg (by omega)]
      refine ⟨rfl, ?_, rfl⟩
      simpa using Int.toNat_of_nonneg hgood.1
  · intro ⟨h0, h1, h2⟩
    simp only [VariantB.SEEK_SET] at h0
    simp only [VariantB.SEEK_CUR] at h1
    simp only [VariantB.SEEK_END] at h2
    simp [VariantB.chardev_lseek, VariantB.SEEK_SET, VariantB.SEEK_CUR,
      VariantB.SEEK_END, h0, h1, h2]

/-- Claim C4, instantiated: `lseek(3, SEEK_END)` from cursor 0 lands on 19,
which exceeds the capacity 16, so the call fails with `-EINVAL` and the
cursor stays put; `lseek(7, SEEK_SET)` succeeds and returns 7. -/
theorem C4_lseek_spec_witness :
    ((VariantB.chardev_lseek ⟨List.replicate 16 0, 0, false⟩ 3 VariantB.SEEK_END).1
        = .error .inval ∧
      (VariantB.chardev_lseek ⟨List.replicate 16 0, 0, false⟩ 3 VariantB.SEEK_END).2.f_pos
        = 0) ∧
    (VariantB.chardev_lseek ⟨List.replicate 16 0, 0, false⟩ 7 VariantB.SEEK_SET).1
      = .ok 7 := by
  have h1 := ((C4_lseek_spec ⟨List.replicate 16 0, 0, false⟩ 3 VariantB.SEEK_END).1
    ((VariantB.CHARDEV_BUFSIZE : Int) + 3)
    (Or.inr (Or.inr ⟨rfl, rfl⟩))).1 (by decide)
  have h2 := ((C4_lseek_spec ⟨List.replicate 16 0, 0, false⟩ 7 VariantB.SEEK_SET).1
    7 (Or.inl ⟨rfl, rfl⟩)).2 (by decide)
  exact ⟨⟨h1.1, h1.2.1⟩, h2.1⟩

/-- Variant-B `chardev_read` keeps the cursor within the capacity. -/
theorem read_f_pos_le (s : VariantB.StateB) (count : Nat) (df : Bool)
    (h : s.f_pos ≤ VariantB.CHARDEV_BUFSIZE) :
    (VariantB.chardev_read s count df).2.f_pos ≤ VariantB.CHARDEV_BUFSIZE := by
  have hp : s.f_pos ≤ 16 := h
  simp only [VariantB.chardev_read, VariantB.CHARDEV_BUFSIZE, VariantB.U64_MOD,
    VariantB.USER_COPY_CAP]
  split_ifs with h1 h2 h3
  · simp
    omega
  · simp
    omega
  · simp
    omega
  · rw [not_or] at h3
    obtain ⟨-, h4⟩ := h3
    simp
    omega

/-- Variant-B `chardev_write` keeps the cursor within the capacity. -/
theorem write_f_pos_le (s : VariantB.StateB) (data : List Nat)
    (count uncopied : Nat) (h : s.f_pos ≤ VariantB.CHARDEV_BUFSIZE) :
    (VariantB.chardev_write s data count uncopied).2.f_pos
      ≤ VariantB.CHARDEV_BUFSIZE := by
  have hp : s.f_pos ≤ 16 := h
  simp only [VariantB.chardev_write, VariantB.CHARDEV_BUFSIZE, VariantB.U64_MOD,
    VariantB.USER_COPY_CAP]
  split_ifs <;> simp <;> omega

/-- Variant-B `chardev_lseek` keeps the cursor within the capacity. -/
theorem lseek_f_pos_le (s : VariantB.StateB) (off whence : Int)
    (h : s.f_pos ≤ VariantB.CHARDEV_BUFSIZE) :
    (VariantB.chardev_lseek s off whence).2.f_pos ≤ VariantB.CHARDEV_BUFSIZE := by
  by_cases h0 : whence = VariantB.SEEK_SET
  · simp [VariantB.chardev_lseek, VariantB.SEEK_SET, h0]
    split_ifs <;> simp <;> omega
  · by_cases h1 : whence = VariantB.SEEK_CUR
    · simp [VariantB.chardev_lseek, VariantB.SEEK_SET, VariantB.SEEK_CUR,
        h1, show whence ≠ 0 by simpa [VariantB.SEEK_SET] using h0]
      split_ifs <;> simp <;> omega
    · by_cases h2 : whence = VariantB.SEEK_END
      · simp [VariantB.chardev_lseek, VariantB.SEEK_SET, VariantB.SEEK_CUR,
          VariantB.SEEK_END, h2,
          show whence ≠ 0 by simpa [VariantB.SEEK_SET] using h0,
          show whence ≠ 1 by simpa [VariantB.SEEK_CUR] using h1]
        split_ifs <;> simp <;> omega
      · simp [VariantB.chardev_lseek,
          show whence ≠ 0 by simpa [VariantB.SEEK_SET] using h0,
          show whence ≠ 1 by simpa [VariantB.SEEK_CUR] using h1,
          show whence ≠ 2 by simpa [VariantB.SEEK_END] using h2,
          VariantB.SEEK_SET, VariantB.SEEK_CUR, VariantB.SEEK_END]
        exact h

/-- Any single variant-B request keeps the cursor within the capacity. -/
theorem stepB_f_pos_le (s : VariantB.StateB) (op : VariantB.OpB)
    (h : s.f_pos ≤ VariantB.CHARDEV_BUFSIZE) :
    (VariantB.stepB s op).f_pos ≤ VariantB.CHARDEV_BUFSIZE := by
  cases op with
  | rd c df => exact read_f_pos_le s c df h
  | wr d c u => exact write_f_pos_le s d c u h
  | sk o w => exact lseek_f_pos_le s o w h

/-- Any sequence of variant-B requests keeps the cursor within the
capacity. -/
theorem runB_f_pos_le (ops : List VariantB.OpB) (s : VariantB.StateB)
    (h : s.f_pos ≤ VariantB.CHARDEV_BUFSIZE) :
    (VariantB.runB s ops).f_pos ≤ VariantB.CHARDEV_BUFSIZE := by
  induction ops generalizing s with
  | nil => exact h
  | cons op rest ih =>
    rw [VariantB.runB]
    exact ih _ (stepB_f_pos_le s op h)

/-- Claim C5: each of variant-B read, write and lseek, applied to a state
whose cursor lies in `[0, 16]`, leaves the cursor in `[0, 16]`; hence every
sequence of such requests started at cursor 0 keeps the cursor in
`[0, 16]`. -/
theorem C5_cursor_invariant :
    (∀ (s : VariantB.StateB) (count : Nat) (df : Bool),
      s.f_pos ≤ VariantB.CHARDEV_BUFSIZE →
      (VariantB.chardev_read s count df).2.f_pos ≤ VariantB.CHARDEV_BUFSIZE) ∧
    (∀ (s : VariantB.StateB) (data : List Nat) (count uncopied : Nat),
      s.f_pos ≤ VariantB.CHARDEV_BUFSIZE →
      (VariantB.chardev_write s data count uncopied).2.f_pos
        ≤ VariantB.CHARDEV_BUFSIZE) ∧
    (∀ (s : VariantB.StateB) (off whence : Int),
      s.f_pos ≤ VariantB.CHARDEV_BUFSIZE →
      (VariantB.chardev_lseek s off whence).2.f_pos ≤ VariantB.CHARDEV_BUFSIZE) ∧
    (∀ (buf : List Nat) (lk : Bool) (ops : List VariantB.OpB),
      (VariantB.runB ⟨buf, 0, lk⟩ ops).f_pos ≤ VariantB.CHARDEV_BUFSIZE) :=
  ⟨read_f_pos_le, write_f_pos_le, lseek_f_pos_le,
   fun buf lk ops => runB_f_pos_le ops ⟨buf, 0, lk⟩ (Nat.zero_le _)⟩

/-- Claim C5, instantiated: an 11-byte read at cursor 9 of the 16-byte
device leaves the cursor at most 16. -/
theorem C5_cursor_invariant_witness :
    (VariantB.chardev_read ⟨List.replicate 16 0, 9, false⟩ 11 false).2.f_pos
      ≤ VariantB.CHARDEV_BUFSIZE :=
  C5_cursor_invariant.1 ⟨List.replicate 16 0, 9, false⟩ 11 false (by decide)

/-- Claim C6: writing any 4 bytes at cursor 0 of the 16-byte device
succeeds, and after seeking back to 0 a 4-byte read returns exactly the
bytes that were written. -/
theorem C6_write_read_round_trip (buf : List Nat) (b0 b1 b2 b3 : Nat)
    (hlen : buf.length = 16) :
    (VariantB.chardev_write ⟨buf, 0, false⟩ [b0, b1, b2, b3] 4 0).1 = .ok 4 ∧
    (VariantB.chardev_read
      (VariantB.chardev_lseek
        (VariantB.chardev_write ⟨buf, 0, false⟩ [b0, b1, b2, b3] 4 0).2
        0 VariantB.SEEK_SET).2 4 false).1 = .ok (4, [b0, b1, b2, b3]) := by
  have hw : VariantB.chardev_write ⟨buf, 0, false⟩ [b0, b1, b2, b3] 4 0
      = (.ok 4, ⟨storeBytes buf 0 [b0, b1, b2, b3], 4, false⟩) := rfl
  have hs : VariantB.chardev_lseek ⟨storeBytes buf 0 [b0, b1, b2, b3], 4, false⟩
        0 VariantB.SEEK_SET
      = (.ok 0, ⟨storeBytes buf 0 [b0, b1, b2, b3], 0, false⟩) := rfl
  have hr : VariantB.chardev_read ⟨storeBytes buf 0 [b0, b1, b2, b3], 0, false⟩
        4 false
      = (.ok (4, ((storeBytes buf 0 [b0, b1, b2, b3]).drop 0).take 4),
         ⟨storeBytes buf 0 [b0, b1, b2, b3], 4, false⟩) := rfl
  refine ⟨by rw [hw], ?_⟩
  rw [hw, hs, hr]
  have := storeBytes_slice [b0, b1, b2, b3] buf 0 (by simp [hlen])
  simpa using this

/-- Claim C6, instantiated: writing `[1, 2, 3, 4]` into the zeroed device
at cursor 0, seeking back and reading 4 bytes yields `[1, 2, 3, 4]`. -/
theorem C6_write_read_round_trip_witness :
    (VariantB.chardev_read
      (VariantB.chardev_lseek
        (VariantB.chardev_write ⟨List.replicate 16 0, 0, false⟩ [1, 2, 3, 4] 4 0).2
        0 VariantB.SEEK_SET).2 4 false).1 = .ok (4, [1, 2, 3, 4]) :=
  (C6_write_read_round_trip (List.replicate 16 0) 1 2 3 4 (by decide)).2

/-- Claim C7: variant-A `chardev_write` rejects any `count` above the
capacity 128 with `-EINVAL` (changing nothing), and for `count ≤ 128` (when
the user copy does not fault) it stores the `count` bytes at offset 0 of
the allocated buffer, leaves `is_open` and the cursor untouched and returns
`count`; the result never depends on the cursor at all. -/
theorem C7_simplified_write :
    (∀ (s : VariantA.StateA) (data : List Nat) (count uncopied : Nat),
      count > VariantA.CHARDEV_BUFSIZE →
      VariantA.chardev_write s data count uncopied = some (.error .inval, s)) ∧
    (∀ (s : VariantA.StateA) (buf data : List Nat) (count : Nat),
      count ≤ VariantA.CHARDEV_BUFSIZE → s.buffer = some buf →
      VariantA.chardev_write s data count 0
        = some (.ok count,
            ⟨some (storeBytes buf 0 (data.take count)), s.is_open, s.f_pos, false⟩)) ∧
    (∀ (s : VariantA.StateA) (data : List Nat) (count uncopied p1 p2 : Nat),
      (VariantA.chardev_write ⟨s.buffer, s.is_open, p1, s.locked⟩ data count uncopied).map
          (fun r => (r.1, r.2.buffer))
        = (VariantA.chardev_write ⟨s.buffer, s.is_open, p2, s.locked⟩ data count uncopied).map
          (fun r => (r.1, r.2.buffer))) := by
  refine ⟨?_, ?_, ?_⟩
  · intro s data count uncopied hbig
    simp [VariantA.chardev_write, hbig]
  · intro s buf data count hle hbuf
    simp [VariantA.chardev_write, Nat.not_lt.mpr hle, hbuf]
  · intro s data count uncopied p1 p2
    by_cases hbig : count > VariantA.CHARDEV_BUFSIZE
    · simp [VariantA.chardev_write, hbig]
    · cases hb : s.buffer with
      | none => simp [VariantA.chardev_write, hbig, hb]
      | some buf =>
        by_cases hu : uncopied = 0 <;>
          simp [VariantA.chardev_write, hbig, hb, hu]

/-- Claim C7, instantiated: a 200-byte write is rejected with `-EINVAL`,
and a 2-byte write of `[7, 8]` into the zeroed 128-byte buffer stores the
two bytes at offset 0 and returns 2. -/
theorem C7_simplified_write_witness :
    VariantA.chardev_write ⟨some (List.replicate 128 0), true, 5, false⟩ [9] 200 0
      = some (.error .inval, ⟨some (List.replicate 128 0), true, 5, false⟩) ∧
    VariantA.chardev_write ⟨some (List.replicate 128 0), true, 5, false⟩ [7, 8] 2 0
      = some (.ok 2,
          ⟨some (storeBytes (List.replicate 128 0) 0 [7, 8]), true, 5, false⟩) := by
  constructor
  · exact C7_simplified_write.1 ⟨some (List.replicate 128 0), true, 5, false⟩ [9] 200 0
      (by decide)
  · have h := C7_simplified_write.2.1 ⟨some (List.replicate 128 0), true, 5, false⟩
      (List.replicate 128 0) [7, 8] 2 (by decide) rfl
    simpa using h

/-- Claim C8: a variant-B read that fails with `-EFAULT` and an lseek that
fails with `-EINVAL` leave cursor and buffer exactly as they were; a
variant-B write (any `size_t` count) interrupted by a copy fault does not
advance the cursor, and the bytes already copied stay in the buffer (they
are not rolled back): when the 64-bit clamp sum does not wrap these are the
`effective_length - uncopied` bytes at the cursor, and when it wraps
`access_ok` rejects the copy before it starts, so the retained prefix is
empty and the buffer is exactly unchanged. -/
theorem C8_error_atomicity :
    (∀ (s : VariantB.StateB) (count : Nat) (df : Bool),
      (VariantB.chardev_read s count df).1 = .error .fault →
      (VariantB.chardev_read s count df).2.f_pos = s.f_pos ∧
      (VariantB.chardev_read s count df).2.buffer = s.buffer) ∧
    (∀ (s : VariantB.StateB) (off whence : Int),
      (VariantB.chardev_lseek s off whence).1 = .error .inval →
      (VariantB.chardev_lseek s off whence).2.f_pos = s.f_pos ∧
      (VariantB.chardev_lseek s off whence).2.buffer = s.buffer) ∧
    (∀ (s : VariantB.StateB) (data : List Nat) (count uncopied : Nat),
      s.f_pos ≤ VariantB.CHARDEV_BUFSIZE →
      count < VariantB.U64_MOD →
      (VariantB.chardev_write s data count uncopied).1 = .error .fault →
      (VariantB.chardev_write s data count uncopied).2.f_pos = s.f_pos ∧
      (s.f_pos + count < VariantB.U64_MOD →
        (VariantB.chardev_write s data count uncopied).2.buffer
          = storeBytes s.buffer s.f_pos
              (data.take (min count (VariantB.CHARDEV_BUFSIZE - s.f_pos) - uncopied))) ∧
      (VariantB.U64_MOD ≤ s.f_pos + count →
        (VariantB.chardev_write s data count uncopied).2.buffer = s.buffer)) := by
  refine ⟨?_, ?_, ?_⟩
  · intro s count df h
    revert h
    simp only [VariantB.chardev_read]
    split_ifs <;> intro h <;> simp_all
  · intro s off whence h
    revert h
    simp only [VariantB.chardev_lseek]
    split
    · intro _
      exact ⟨rfl, rfl⟩
    · split_ifs <;> intro h <;> simp_all
  · intro s data count uncopied hpos hcnt h
    refine ⟨?_, ?_, ?_⟩
    · revert h
      simp only [VariantB.chardev_write]
      split_ifs <;> intro h <;> simp_all
    · intro hnw
      have hc := clamp_eq_min s.f_pos count VariantB.CHARDEV_BUFSIZE hpos hnw
      have hle : ¬ (min count (VariantB.CHARDEV_BUFSIZE - s.f_pos)
          > VariantB.USER_COPY_CAP) := by
        have hb : min count (VariantB.CHARDEV_BUFSIZE - s.f_pos) ≤ 16 := by
          have : VariantB.CHARDEV_BUFSIZE = 16 := rfl
          omega
        have : VariantB.USER_COPY_CAP = 9223372036854775808 := rfl
        omega
      revert h
      simp only [VariantB.chardev_write, hc, hle, if_false]
      split_ifs <;> intro h <;> simp_all
    · intro hwrap
      have hp : s.f_pos ≤ 16 := hpos
      have hcn : count < 18446744073709551616 := hcnt
      have hw2 : (18446744073709551616 : Nat) ≤ s.f_pos + count := hwrap
      have hmod : (s.f_pos + count) % 18446744073709551616
          = s.f_pos + count - 18446744073709551616 := by
        rw [Nat.mod_eq_sub_mod hw2, Nat.mod_eq_of_lt (by omega)]
      have hclamp : (if (s.f_pos + count) % 18446744073709551616 > 16
          then 16 - s.f_pos else count) = count := by
        rw [hmod]
        exact if_neg (by omega)
      revert h
      simp only [VariantB.chardev_write, VariantB.CHARDEV_BUFSIZE, VariantB.U64_MOD,
        VariantB.USER_COPY_CAP, hclamp]
      rw [if_neg (show ¬ (count = 0) by omega),
        if_pos (show count > 9223372036854775808 by omega)]
      intro _
      rfl

/-- Claim C8, instantiated: a faulting 4-byte read at cursor 2, an
`lseek(200, SEEK_SET)`, and a 4-byte write at cursor 0 whose copy faults
after 2 bytes, each leave the cursor where it was; the write keeps the 2
copied bytes.  A write at cursor 8 with the wrap-sized count `2^64 - 4`
also faults, leaving cursor and buffer untouched. -/
theorem C8_error_atomicity_witness :
    ((VariantB.chardev_read ⟨List.replicate 16 0, 2, false⟩ 4 true).2.f_pos = 2 ∧
      (VariantB.chardev_read ⟨List.replicate 16 0, 2, false⟩ 4 true).2.buffer
        = List.replicate 16 0) ∧
    ((VariantB.chardev_lseek ⟨List.replicate 16 0, 2, false⟩ 200
        VariantB.SEEK_SET).2.f_pos = 2) ∧
    ((VariantB.chardev_write ⟨List.replicate 16 0, 0, false⟩ [1, 2, 3, 4] 4 2).2.f_pos
        = 0 ∧
      (VariantB.chardev_write ⟨List.replicate 16 0, 0, false⟩ [1, 2, 3, 4] 4 2).2.buffer
        = storeBytes (List.replicate 16 0) 0
            ([1, 2, 3, 4].take (min 4 (VariantB.CHARDEV_BUFSIZE - 0) - 2))) ∧
    ((VariantB.chardev_write ⟨List.replicate 16 0, 8, false⟩ [5] (2 ^ 64 - 4) 0).2.f_pos
        = 8 ∧
      (VariantB.chardev_write ⟨List.replicate 16 0, 8, false⟩ [5] (2 ^ 64 - 4) 0).2.buffer
        = List.replicate 16 0) := by
  refine ⟨?_, ?_, ?_, ?_⟩
  · exact C8_error_atomicity.1 ⟨List.replicate 16 0, 2, false⟩ 4 true rfl
  · exact (C8_error_atomicity.2.1 ⟨List.replicate 16 0, 2, false⟩ 200
      VariantB.SEEK_SET rfl).1
  · have h := C8_error_atomicity.2.2 ⟨List.replicate 16 0, 0, false⟩ [1, 2, 3, 4] 4 2
      (by decide) (by decide) rfl
    exact ⟨h.1, h.2.1 (by decide)⟩
  · have h := C8_error_atomicity.2.2 ⟨List.replicate 16 0, 8, false⟩ [5] (2 ^ 64 - 4) 0
      (by decide) (by decide) (by rfl)
    exact ⟨h.1, h.2.2 (by decide)⟩

/-- Claim C9: every modelled operation that takes `chardev_mutex` releases
it on every exit path — success and every error return (`-EFBIG`,
`-EFAULT`, `-EINVAL`, `-EBUSY`, `-ENOMEM`) alike — so when an operation is
entered with the mutex free, the mutex is free again after it returns.
Covers variant-B write/read/lseek/open/release, variant-A
open/release/write, and variant-C open. -/
theorem C9_lock_released_on_every_path :
    (∀ (s : VariantB.StateB) (data : List Nat) (count uncopied : Nat),
      s.locked = false →
      (VariantB.chardev_write s data count uncopied).2.locked = false) ∧
    (∀ (s : VariantB.StateB) (count : Nat) (df : Bool),
      s.locked = false → (VariantB.chardev_read s count df).2.locked = false) ∧
    (∀ (s : VariantB.StateB) (off whence : Int),
      s.locked = false → (VariantB.chardev_lseek s off whence).2.locked = false) ∧
    (∀ (s : VariantB.StateB) (idm : Bool),
      s.locked = false → (VariantB.chardev_open s idm).2.locked = false) ∧
    (∀ s : VariantB.StateB,
      s.locked = false → (VariantB.chardev_release s).2.locked = false) ∧
    (∀ (s : VariantA.StateA) (idm alloc : Bool),
      s.locked = false → (VariantA.chardev_open s idm alloc).2.locked = false) ∧
    (∀ s : VariantA.StateA, (VariantA.chardev_release s).2.locked = false) ∧
    (∀ (s : VariantA.StateA) (data : List Nat) (count uncopied : Nat)
        (r : Except Err Nat × VariantA.StateA),
      s.locked = false → VariantA.chardev_write s data count uncopied = some r →
      r.2.locked = false) ∧
    (∀ (s : VariantC.StateC) (idm : Bool),
      s.locked = false → (VariantC.chardev_open s idm).2.locked = false) := by
  refine ⟨?_, ?_, ?_, ?_, ?_, ?_, ?_, ?_, ?_⟩
  · intro s data count uncopied h
    simp only [VariantB.chardev_write]
    split_ifs <;> rfl
  · intro s count df h
    simp only [VariantB.chardev_read]
    split_ifs <;> rfl
  · intro s off whence h
    simp only [VariantB.chardev_lseek]
    split
    · rfl
    · split_ifs <;> rfl
  · intro s idm h
    simp only [VariantB.chardev_open]
    split_ifs <;> exact h
  · intro s h
    exact h
  · intro s idm alloc h
    simp only [VariantA.chardev_open]
    split_ifs <;> first | exact h | rfl
  · intro s
    rfl
  · intro s data count uncopied r h heq
    revert heq
    by_cases hbig : count > VariantA.CHARDEV_BUFSIZE
    · simp only [VariantA.chardev_write, if_pos hbig]
      intro heq
      rw [Option.some_inj] at heq
      rw [← heq]
      exact h
    · cases hb : s.buffer with
      | none => simp [VariantA.chardev_write, if_neg hbig, hb]
      | some buf =>
        simp only [VariantA.chardev_write, if_neg hbig, hb]
        split_ifs <;> intro heq <;> rw [Option.some_inj] at heq <;>
          rw [← heq]
  · intro s idm h
    simp only [VariantC.chardev_open]
    split_ifs <;> first | exact h | rfl

/-- Claim C9, instantiated: a variant-B write faulting mid-copy, entered
with the mutex free, returns with the mutex free. -/
theorem C9_lock_released_on_every_path_witness :
    (VariantB.chardev_write ⟨List.replicate 16 0, 0, false⟩ [1, 2, 3, 4] 4 2).2.locked
      = false :=
  C9_lock_released_on_every_path.1 ⟨List.replicate 16 0, 0, false⟩ [1, 2, 3, 4] 4 2 rfl

/-- Variant-C `chardev_open` never clears `is_open`. -/
theorem VariantC.open_keeps_is_open (s : VariantC.StateC) (idm : Bool)
    (h : s.is_open = true) : (VariantC.chardev_open s idm).2.is_open = true := by
  simp only [VariantC.chardev_open]
  split_ifs <;> simpa using h

/-- Claim C10: in variant C no registered file operation ever clears
`is_open` (there is no release handler): an open that reaches the device
while it is open fails with `-EBUSY`; a successful open leaves it open; and
once open it stays open across every further sequence of open requests —
the only operation `chardev_fileops` registers. -/
theorem C10_open_forever :
    (∀ (s : VariantC.StateC) (idm : Bool),
      s.is_open = true →
      (VariantC.chardev_open s idm).2.is_open = true ∧
      (idm = true → (VariantC.chardev_open s idm).1 = .error .busy)) ∧
    (∀ (s : VariantC.StateC) (idm : Bool),
      (VariantC.chardev_open s idm).1 = .ok () →
      (VariantC.chardev_open s idm).2.is_open = true) ∧
    (∀ (s : VariantC.StateC) (ops : List Bool),
      s.is_open = true → (VariantC.runC s ops).is_open = true) := by
  refine ⟨?_, ?_, ?_⟩
  · intro s idm h
    refine ⟨VariantC.open_keeps_is_open s idm h, ?_⟩
    intro hidm
    simp [VariantC.chardev_open, hidm, h]
  · intro s idm h
    revert h
    simp only [VariantC.chardev_open]
    split_ifs <;> intro h <;> simp_all
  · intro s ops h
    induction ops generalizing s with
    | nil => exact h
    | cons idm rest ih =>
      rw [VariantC.runC]
      exact ih _ (VariantC.open_keeps_is_open s idm h)

/-- Claim C10, instantiated: with the variant-C device already open, ten
further open attempts leave it open, and a matching open fails with
`-EBUSY`. -/
theorem C10_open_forever_witness :
    (VariantC.runC ⟨true, false⟩
      [true, false, true, true, false, true, true, true, false, true]).is_open
        = true ∧
    (VariantC.chardev_open ⟨true, false⟩ true).1 = .error .busy :=
  ⟨C10_open_forever.2.2 ⟨true, false⟩
      [true, false, true, true, false, true, true, true, false, true] rfl,
   (C10_open_forever.1 ⟨true, false⟩ true rfl).2 rfl⟩

end Chardev
